import Mathlib

/-!
Shallow embedding of `src/public/components/layer_config/documents_config/document_layer_source.tsx`
from the dashboards-maps repository.

The file is a React form component (`DocumentLayerSource`).  Its logic is
embedded here as pure Lean functions:

* the layer-configuration record `DocumentLayerSpecification` with its
  `source` sub-record;
* JavaScript number semantics for `documentRequestNumber` (which can be `NaN`
  after a failed `parseInt`) as the type `JSNum`, with NaN-aware `<` / `>`;
* `parseInt(value, 10)` as `jsParseInt`;
* each change handler (`onGeoFieldChange`, `onDocumentRequestNumberChange`,
  `onTooltipSelectionChange`, `onFiltersUpdated`, `onShowTooltipsChange`,
  `onToggleGeoBoundingBox`) as a function producing the configuration object
  the component passes to `setSelectedLayerConfig`;
* the `useEffect` blocks that derive view state (`hasInvalidRequestNumber`,
  the `disableUpdate` flag, the index-pattern change effect, the memorization
  effect) as functions of their inputs;
* `tooltipFieldsOptions`, including lodash `_.groupBy` over field types.

JavaScript truthiness on optional strings (`indexPattern.id` may be
`undefined` or the empty string, both falsy) is modelled explicitly.
-/

/-- An opaque search filter (the component never inspects filter contents). -/
structure LayerFilter where
  tag : Nat
deriving DecidableEq, Repr

/-- A field of an index pattern: `name`, `displayName`, `type`.
`displayName` may be the empty string, which is falsy in JavaScript and makes
`field.displayName || field.name` fall back to `name`. -/
structure IndexPatternField where
  name : String
  displayName : String
  type : String
deriving DecidableEq, Repr

/-- An index pattern: `id` (optional in the host platform's type), `title`,
and its list of fields. -/
structure IndexPattern where
  id : Option String
  title : String
  fields : List IndexPatternField
deriving DecidableEq, Repr

/-- A JavaScript number as used for `documentRequestNumber`: either `NaN`
(the result of `parseInt` on a non-numeric string) or an integer. -/
inductive JSNum where
  | nan : JSNum
  | int : Int → JSNum
deriving DecidableEq, Repr

/-- JavaScript `<` on `JSNum`: any comparison involving `NaN` is `false`. -/
def JSNum.lt : JSNum → JSNum → Bool
  | .int a, .int b => a < b
  | _, _ => false

/-- JavaScript `>` on `JSNum`: any comparison involving `NaN` is `false`. -/
def JSNum.gt : JSNum → JSNum → Bool
  | .int a, .int b => b < a
  | _, _ => false

/-- The `source` sub-object of a document-layer configuration. -/
structure LayerSource where
  indexPatternId : String
  indexPatternRefName : String
  geoFieldName : String
  geoFieldType : String
  documentRequestNumber : JSNum
  filters : List LayerFilter
  tooltipFields : List String
  showTooltips : Bool
  useGeoBoundingBoxFilter : Bool
deriving DecidableEq, Repr

/-- The layer configuration handed to the component
(`DocumentLayerSpecification`). -/
structure DocumentLayerSpecification where
  id : String
  source : LayerSource
deriving DecidableEq, Repr

/-- An option of the tooltip / geo-field combo boxes: `{ label: string }`. -/
structure ComboOption where
  label : String
deriving DecidableEq, Repr

/-- A grouped combo-box option: `{ label: string, options: { label }[] }`. -/
structure ComboGroup where
  label : String
  options : List ComboOption
deriving DecidableEq, Repr

/-- One entry of the component's `memorizedForm` ref:
`{ filters?: LayerFilter[]; geoField?: IndexPatternField }`. -/
structure MemorizedEntry where
  filters : Option (List LayerFilter)
  geoField : Option IndexPatternField
deriving DecidableEq, Repr

/-- The `memorizedForm` ref: a map from index-pattern id to an optional
memorized entry (`undefined` when the id was never written). -/
def MemorizedForm : Type := String → Option MemorizedEntry

/-- Point update of the memorized form at one index-pattern id. -/
def memUpdate (mem : MemorizedForm) (pid : String) (e : MemorizedEntry) :
    MemorizedForm :=
  fun k => if k = pid then some e else mem k

/-- JavaScript truthiness of an optional string: `undefined` and `""` are
falsy (used for `indexPattern.id` checks in the component). -/
def strTruthy : Option String → Bool
  | none => false
  | some s => s != ""

/-- The strict-inequality test `indexPattern.id !== source.indexPatternId`
with `id : string | undefined`: `undefined` differs from every string. -/
def idDiffers : Option String → String → Bool
  | none, _ => true
  | some t, s => t != s

/-- `field.displayName || field.name` (JavaScript `||`, empty string falsy). -/
def fieldLabel (f : IndexPatternField) : String :=
  if f.displayName = "" then f.name else f.displayName

/-- Numeric value of a list of decimal digit characters. -/
def digitsToNat (cs : List Char) : Nat :=
  cs.foldl (fun acc c => acc * 10 + (c.toNat - '0'.toNat)) 0

/-- JavaScript `parseInt(value, 10)`: skip leading whitespace, read an
optional sign, then the longest prefix of decimal digits; `NaN` when that
prefix is empty. -/
def jsParseInt (s : String) : JSNum :=
  let cs := s.data.dropWhile Char.isWhitespace
  let signAndRest : Bool × List Char :=
    match cs with
    | '-' :: r => (true, r)
    | '+' :: r => (false, r)
    | r => (false, r)
  let ds := signAndRest.2.takeWhile Char.isDigit
  if ds.isEmpty then JSNum.nan
  else JSNum.int (if signAndRest.1 then -(digitsToNat ds : Int) else (digitsToNat ds : Int))

/-- The `geoFields` memo: fields of the resolved index pattern whose type is
in `['geo_point', 'geo_shape']`; `undefined` when there is no index pattern. -/
def geoFieldsOf (ip : Option IndexPattern) : Option (List IndexPatternField) :=
  ip.map fun p => p.fields.filter fun f => ["geo_point", "geo_shape"].contains f.type

/-- The `selectedField` memo: the first element of `geoFields` whose `name`
equals `source.geoFieldName`. -/
def selectedFieldOf (geoFields : Option (List IndexPatternField))
    (cfg : DocumentLayerSpecification) : Option IndexPatternField :=
  geoFields.bind fun fs => fs.find? fun f => f.name == cfg.source.geoFieldName

/-- The validity effect (lines 245-250): `hasInvalidRequestNumber` is
`documentRequestNumber < 1 || documentRequestNumber > 10000` under JavaScript
comparison semantics. -/
def hasInvalidRequestNumberOf (s : LayerSource) : Bool :=
  JSNum.lt s.documentRequestNumber (JSNum.int 1) ||
    JSNum.gt s.documentRequestNumber (JSNum.int 10000)

/-- The update-disabling effect (lines 119-122): disabled when there is no
index pattern, or no selected field, or the request number is invalid. -/
def disableUpdate (ip : Option IndexPattern) (sel : Option IndexPatternField)
    (hasInvalid : Bool) : Bool :=
  ip.isNone || sel.isNone || hasInvalid

/-- The configuration `onGeoFieldChange` emits for a non-null field: copies
the configuration, replacing `geoFieldName` with the field's `displayName`
and `geoFieldType` with its `type`. -/
def geoFieldChangeConfig (cfg : DocumentLayerSpecification)
    (field : IndexPatternField) : DocumentLayerSpecification :=
  { cfg with
    source := { cfg.source with
      geoFieldName := field.displayName
      geoFieldType := field.type } }

/-- `onGeoFieldChange` (lines 90-112): calls `setSelectedLayerConfig` only
when the field is non-null; `none` models no call. -/
def onGeoFieldChange (cfg : DocumentLayerSpecification)
    (field : Option IndexPatternField) : Option DocumentLayerSpecification :=
  field.map (geoFieldChangeConfig cfg)

/-- The memorized-form write performed by `onGeoFieldChange` when the current
index pattern has a truthy id: spread the existing entry (or nothing) and set
`geoField`. -/
def geoFieldChangeMem (mem : MemorizedForm) (ip : Option IndexPattern)
    (field : IndexPatternField) : MemorizedForm :=
  match ip with
  | some p =>
    if strTruthy p.id then
      let pid := p.id.getD ""
      memUpdate mem pid ⟨(mem pid).bind MemorizedEntry.filters, some field⟩
    else mem
  | none => mem

/-- `onDocumentRequestNumberChange` (lines 173-178): parse the input string
with `parseInt(value, 10)` and store the result in
`source.documentRequestNumber`. -/
def onDocumentRequestNumberChangeConfig (cfg : DocumentLayerSpecification)
    (value : String) : DocumentLayerSpecification :=
  { cfg with source := { cfg.source with documentRequestNumber := jsParseInt value } }

/-- `onTooltipSelectionChange` (lines 180-187): store the labels of the
selected options, in order, in `source.tooltipFields`. -/
def onTooltipSelectionChangeConfig (cfg : DocumentLayerSpecification)
    (options : List ComboOption) : DocumentLayerSpecification :=
  { cfg with source := { cfg.source with tooltipFields := options.map ComboOption.label } }

/-- `onFiltersUpdated` (lines 189-205), configuration part: replace
`source.filters` with the new filters. -/
def onFiltersUpdatedConfig (cfg : DocumentLayerSpecification)
    (filters : List LayerFilter) : DocumentLayerSpecification :=
  { cfg with source := { cfg.source with filters := filters } }

/-- The memorized-form write performed by `onFiltersUpdated`. -/
def onFiltersUpdatedMem (mem : MemorizedForm) (ip : Option IndexPattern)
    (filters : List LayerFilter) : MemorizedForm :=
  match ip with
  | some p =>
    if strTruthy p.id then
      let pid := p.id.getD ""
      memUpdate mem pid ⟨some filters, (mem pid).bind MemorizedEntry.geoField⟩
    else mem
  | none => mem

/-- `onShowTooltipsChange` (lines 252-256), configuration part. -/
def onShowTooltipsChangeConfig (cfg : DocumentLayerSpecification)
    (checked : Bool) : DocumentLayerSpecification :=
  { cfg with source := { cfg.source with showTooltips := checked } }

/-- `onToggleGeoBoundingBox` (lines 258-261). -/
def onToggleGeoBoundingBoxConfig (cfg : DocumentLayerSpecification)
    (checked : Bool) : DocumentLayerSpecification :=
  { cfg with source := { cfg.source with useGeoBoundingBoxFilter := checked } }

/-- The memorization effect (lines 75-88): when an index pattern with a
truthy id equal to `source.indexPatternId` is resolved and no entry is cached
for that id, cache `{ filters: source.filters, geoField: selectedField }`. -/
def memorizationEffect (mem : MemorizedForm) (ip : Option IndexPattern)
    (cfg : DocumentLayerSpecification) (sel : Option IndexPatternField) :
    MemorizedForm :=
  match ip with
  | some p =>
    if strTruthy p.id then
      let pid := p.id.getD ""
      if pid = cfg.source.indexPatternId then
        match mem pid with
        | none => memUpdate mem pid ⟨some cfg.source.filters, sel⟩
        | some _ => mem
      else mem
    else mem
  | none => mem

/-- The index-pattern change effect (lines 220-243): when the resolved index
pattern's id differs from `source.indexPatternId`, emit a configuration with
the new id and title, filters restored from the memorized form (or `[]`), and
the geo field restored from the memorized form when one is cached; `none`
models no `setSelectedLayerConfig` call. -/
def onIndexPatternChange (cfg : DocumentLayerSpecification) (ip : IndexPattern)
    (mem : MemorizedForm) : Option DocumentLayerSpecification :=
  if idDiffers ip.id cfg.source.indexPatternId then
    let pid := ip.id.getD ""
    let filters :=
      if strTruthy ip.id then ((mem pid).bind MemorizedEntry.filters).getD [] else []
    let geoField :=
      if strTruthy ip.id then (mem pid).bind MemorizedEntry.geoField else none
    let s1 := { cfg.source with
      indexPatternId := pid
      indexPatternRefName := ip.title
      filters := filters }
    let s2 :=
      match geoField with
      | some g => { s1 with geoFieldName := g.displayName, geoFieldType := g.type }
      | none => s1
    some { cfg with source := s2 }
  else none

/-- The `disabled` prop of the bounding-box checkbox (line 377):
`selectedLayerConfig.source.geoFieldType !== 'geo_point'`. -/
def boundingBoxDisabled (cfg : DocumentLayerSpecification) : Bool :=
  cfg.source.geoFieldType != "geo_point"

/-- One step of lodash `_.groupBy`: append the field to the first group whose
key is the field's type, or open a new group at the end. -/
def insertGroup (f : IndexPatternField) :
    List (String × List IndexPatternField) → List (String × List IndexPatternField)
  | [] => [(f.type, [f])]
  | (t, g) :: rest =>
    if t = f.type then (t, g ++ [f]) :: rest else (t, g) :: insertGroup f rest

/-- lodash `_.groupBy(fieldList, field => field.type)` together with
`Object.entries`: an association list from field type to the fields of that
type, keys in order of first occurrence. -/
def groupByType (fs : List IndexPatternField) :
    List (String × List IndexPatternField) :=
  fs.foldl (fun acc f => insertGroup f acc) []

/-- First-occurrence lookup in an association list of field groups. -/
def assocLookup (t : String) :
    List (String × List IndexPatternField) → Option (List IndexPatternField)
  | [] => none
  | (k, v) :: rest => if k = t then some v else assocLookup t rest

/-- `tooltipFieldsOptions` (lines 139-161): empty when there is no index
pattern, otherwise one combo-box group per entry of the type grouping, each
option labelled `field.displayName || field.name`. -/
def tooltipFieldsOptions (ip : Option IndexPattern) : List ComboGroup :=
  match ip with
  | none => []
  | some p =>
    (groupByType p.fields).map fun e =>
      { label := e.1, options := e.2.map fun f => { label := fieldLabel f } }

/-! ### Lemmas about the lodash grouping -/

theorem assocLookup_insertGroup (f : IndexPatternField)
    (acc : List (String × List IndexPatternField)) (t : String) :
    assocLookup t (insertGroup f acc) =
      if t = f.type then some ((assocLookup t acc).getD [] ++ [f])
      else assocLookup t acc := by
  induction acc with
  | nil =>
    by_cases h : t = f.type
    · simp [insertGroup, assocLookup, h]
    · have h' : ¬ f.type = t := fun hh => h hh.symm
      simp [insertGroup, assocLookup, h, h']
  | cons hd rest ih =>
    obtain ⟨k, v⟩ := hd
    by_cases hk : k = f.type
    · by_cases ht : t = f.type
      · simp [insertGroup, assocLookup, hk, ht]
      · have ht' : ¬ f.type = t := fun hh => ht hh.symm
        have hkt : ¬ k = t := fun hh => ht (hh ▸ hk)
        simp [insertGroup, assocLookup, hk, ht, ht', hkt]
    · by_cases hkt : k = t
      · have ht : ¬ t = f.type := fun hh => hk (hkt.symm ▸ hh)
        simp [insertGroup, assocLookup, hk, hkt, ht]
      · simp [insertGroup, assocLookup, hk, hkt, ih]

theorem assocLookup_foldl_insertGroup (fs : List IndexPatternField) :
    ∀ (acc : List (String × List IndexPatternField)) (t : String),
    assocLookup t (fs.foldl (fun a f => insertGroup f a) acc) =
      if assocLookup t acc = none ∧ fs.filter (fun f => f.type == t) = [] then none
      else some ((assocLookup t acc).getD [] ++ fs.filter (fun f => f.type == t)) := by
  induction fs with
  | nil =>
    intro acc t
    cases h : assocLookup t acc <;> simp [h]
  | cons f fs ih =>
    intro acc t
    rw [List.foldl_cons, ih (insertGroup f acc) t, assocLookup_insertGroup]
    by_cases ht : t = f.type
    · have : (f.type == t) = true := by simp [ht]
      simp [ht, this, List.filter_cons]
    · have ht' : ¬ f.type = t := fun hh => ht hh.symm
      have : (f.type == t) = false := by simp [ht']
      simp [ht, this, List.filter_cons]

theorem assocLookup_groupByType (fs : List IndexPatternField) (t : String) :
    assocLookup t (groupByType fs) =
      if fs.filter (fun f => f.type == t) = [] then none
      else some (fs.filter (fun f => f.type == t)) := by
  rw [groupByType, assocLookup_foldl_insertGroup]
  simp [assocLookup]

theorem keys_insertGroup (f : IndexPatternField)
    (acc : List (String × List IndexPatternField)) :
    (insertGroup f acc).map Prod.fst =
      if f.type ∈ acc.map Prod.fst then acc.map Prod.fst
      else acc.map Prod.fst ++ [f.type] := by
  induction acc with
  | nil => simp [insertGroup]
  | cons hd rest ih =>
    obtain ⟨k, v⟩ := hd
    by_cases hk : k = f.type
    · simp [insertGroup, hk]
    · have : ¬ f.type = k := fun hh => hk hh.symm
      by_cases hm : f.type ∈ rest.map Prod.fst <;>
        simp [insertGroup, hk, this, hm, ih]

theorem keys_nodup_foldl (fs : List IndexPatternField) :
    ∀ (acc : List (String × List IndexPatternField)),
    (acc.map Prod.fst).Nodup →
    ((fs.foldl (fun a f => insertGroup f a) acc).map Prod.fst).Nodup := by
  induction fs with
  | nil => intro acc h; simpa using h
  | cons f fs ih =>
    intro acc h
    rw [List.foldl_cons]
    refine ih (insertGroup f acc) ?_
    rw [keys_insertGroup]
    by_cases hm : f.type ∈ acc.map Prod.fst
    · simpa [hm] using h
    · simp [hm, List.nodup_append, h]

theorem keys_nodup_groupByType (fs : List IndexPatternField) :
    ((groupByType fs).map Prod.fst).Nodup := by
  exact keys_nodup_foldl fs [] (by simp)

theorem assocLookup_of_mem
    (l : List (String × List IndexPatternField))
    (e : String × List IndexPatternField)
    (hnd : (l.map Prod.fst).Nodup) (he : e ∈ l) :
    assocLookup e.1 l = some e.2 := by
  induction l with
  | nil => cases he
  | cons hd rest ih =>
    obtain ⟨k, v⟩ := hd
    rcases List.mem_cons.mp he with h | h
    · subst h
      simp [assocLookup]
    · have hk : ¬ k = e.1 := by
        intro hh
        have : e.1 ∈ rest.map Prod.fst := List.mem_map_of_mem Prod.fst h
        rw [List.map_cons, List.nodup_cons] at hnd
        exact hnd.1 (hh ▸ this)
      have hnd' : (rest.map Prod.fst).Nodup := by
        rw [List.map_cons, List.nodup_cons] at hnd
        exact hnd.2
      simp [assocLookup, hk, ih hnd' h]

theorem mem_of_assocLookup
    (l : List (String × List IndexPatternField)) (t : String)
    (v : List IndexPatternField) (h : assocLookup t l = some v) : (t, v) ∈ l := by
  induction l with
  | nil => simp [assocLookup] at h
  | cons hd rest ih =>
    obtain ⟨k, w⟩ := hd
    by_cases hk : k = t
    · subst hk
      simp [assocLookup] at h
      simp [h]
    · simp [assocLookup, hk] at h
      exact List.mem_cons_of_mem _ (ih h)

theorem groupByType_entry_eq_filter (fs : List IndexPatternField)
    (e : String × List IndexPatternField) (he : e ∈ groupByType fs) :
    e.2 = fs.filter (fun f => f.type == e.1) ∧ e.2 ≠ [] := by
  have h1 : assocLookup e.1 (groupByType fs) = some e.2 :=
    assocLookup_of_mem _ e (keys_nodup_groupByType fs) he
  rw [assocLookup_groupByType] at h1
  by_cases hf : fs.filter (fun f => f.type == e.1) = []
  · simp [hf] at h1
  · simp [hf] at h1
    exact ⟨h1.symm, by rw [← h1]; exact hf⟩

theorem groupByType_mem_of_field (fs : List IndexPatternField)
    (f : IndexPatternField) (hf : f ∈ fs) :
    (f.type, fs.filter (fun g => g.type == f.type)) ∈ groupByType fs := by
  apply mem_of_assocLookup
  rw [assocLookup_groupByType]
  have hne : fs.filter (fun g => g.type == f.type) ≠ [] := by
    have : f ∈ fs.filter (fun g => g.type == f.type) :=
      List.mem_filter.mpr ⟨hf, by simp⟩
    intro hcon
    rw [hcon] at this
    cases this
  simp [hne]

theorem groupByType_key_inj (fs : List IndexPatternField)
    (e₁ e₂ : String × List IndexPatternField)
    (h₁ : e₁ ∈ groupByType fs) (h₂ : e₂ ∈ groupByType fs)
    (hk : e₁.1 = e₂.1) : e₁ = e₂ := by
  have l₁ := assocLookup_of_mem _ e₁ (keys_nodup_groupByType fs) h₁
  have l₂ := assocLookup_of_mem _ e₂ (keys_nodup_groupByType fs) h₂
  rw [hk, l₂] at l₁
  exact Prod.ext hk (Option.some.inj l₁).symm

/-! ### Example fixtures used by witnesses -/

/-- A concrete layer configuration used as input for witness theorems. -/
def cfgEx : DocumentLayerSpecification :=
  { id := "layer-1"
    source :=
      { indexPatternId := "ip-1"
        indexPatternRefName := "pattern-1"
        geoFieldName := "location"
        geoFieldType := "geo_point"
        documentRequestNumber := JSNum.int 1000
        filters := [⟨0⟩]
        tooltipFields := ["city"]
        showTooltips := false
        useGeoBoundingBoxFilter := false } }

/-! ### Claims -/

/-- C1: `hasInvalidRequestNumber` is set to `true` exactly when
`source.documentRequestNumber < 1` or `> 10000`; the boundary values `1` and
`10000` are valid. -/
theorem requestNumber_invalid_iff_out_of_range (s : LayerSource) (n : Int) :
    (hasInvalidRequestNumberOf { s with documentRequestNumber := JSNum.int n } = true
      ↔ (n < 1 ∨ 10000 < n)) ∧
    hasInvalidRequestNumberOf { s with documentRequestNumber := JSNum.int 1 } = false ∧
    hasInvalidRequestNumberOf { s with documentRequestNumber := JSNum.int 10000 } = false := by
  refine ⟨?_, ?_, ?_⟩ <;> simp [hasInvalidRequestNumberOf, JSNum.lt, JSNum.gt]

/-- C2: the effect at lines 119-122 passes `true` to `setIsUpdateDisabled`
whenever `hasInvalidRequestNumber` is `true`, and in general exactly when
there is no resolved index pattern, or no derived selected geo field, or the
request number is flagged invalid. -/
theorem update_disabled_iff (ip : Option IndexPattern)
    (cfg : DocumentLayerSpecification) (sel : Option IndexPatternField) :
    disableUpdate ip sel true = true ∧
    (disableUpdate ip (selectedFieldOf (geoFieldsOf ip) cfg)
        (hasInvalidRequestNumberOf cfg.source) = true ↔
      (ip = none ∨ selectedFieldOf (geoFieldsOf ip) cfg = none ∨
        hasInvalidRequestNumberOf cfg.source = true)) := by
  constructor
  · simp [disableUpdate]
  · simp [disableUpdate, Option.isNone_iff_eq_none, or_assoc]

/-- C3: when `parseInt` yields `NaN` (for example on the empty string), the
handler stores `NaN` in `documentRequestNumber`, the validity check leaves
`hasInvalidRequestNumber` at `false`, and with an index pattern and selected
field present the update action is not disabled. -/
theorem nan_request_number_not_flagged (cfg : DocumentLayerSpecification)
    (s : String) (h : jsParseInt s = JSNum.nan) :
    (onDocumentRequestNumberChangeConfig cfg s).source.documentRequestNumber
        = JSNum.nan ∧
    hasInvalidRequestNumberOf
        (onDocumentRequestNumberChangeConfig cfg s).source = false ∧
    ∀ (ip : IndexPattern) (f : IndexPatternField),
      disableUpdate (some ip) (some f)
        (hasInvalidRequestNumberOf
          (onDocumentRequestNumberChangeConfig cfg s).source) = false := by
  refine ⟨?_, ?_, ?_⟩ <;>
    simp [onDocumentRequestNumberChangeConfig, h, hasInvalidRequestNumberOf,
      JSNum.lt, JSNum.gt, disableUpdate]

/-- Witness for C3 at the empty input string and a concrete configuration. -/
theorem nan_request_number_not_flagged_witness :
    (onDocumentRequestNumberChangeConfig cfgEx "").source.documentRequestNumber
        = JSNum.nan ∧
    hasInvalidRequestNumberOf
        (onDocumentRequestNumberChangeConfig cfgEx "").source = false :=
  ⟨(nan_request_number_not_flagged cfgEx "" rfl).1,
    (nan_request_number_not_flagged cfgEx "" rfl).2.1⟩

/-- C6: each handler emits a freshly built configuration that keeps the
configuration `id` and every `source` field other than the one(s) that
handler is defined to change. -/
theorem handlers_preserve_untouched_fields
    (cfg : DocumentLayerSpecification) (f : IndexPatternField) (v : String)
    (options : List ComboOption) (fs : List LayerFilter) (b c : Bool) :
    (onGeoFieldChange cfg (some f) = some (geoFieldChangeConfig cfg f) ∧
      (geoFieldChangeConfig cfg f).id = cfg.id ∧
      (geoFieldChangeConfig cfg f).source.indexPatternId = cfg.source.indexPatternId ∧
      (geoFieldChangeConfig cfg f).source.indexPatternRefName = cfg.source.indexPatternRefName ∧
      (geoFieldChangeConfig cfg f).source.documentRequestNumber = cfg.source.documentRequestNumber ∧
      (geoFieldChangeConfig cfg f).source.filters = cfg.source.filters ∧
      (geoFieldChangeConfig cfg f).source.tooltipFields = cfg.source.tooltipFields ∧
      (geoFieldChangeConfig cfg f).source.showTooltips = cfg.source.showTooltips ∧
      (geoFieldChangeConfig cfg f).source.useGeoBoundingBoxFilter = cfg.source.useGeoBoundingBoxFilter) ∧
    ((onDocumentRequestNumberChangeConfig cfg v).id = cfg.id ∧
      (onDocumentRequestNumberChangeConfig cfg v).source.indexPatternId = cfg.source.indexPatternId ∧
      (onDocumentRequestNumberChangeConfig cfg v).source.indexPatternRefName = cfg.source.indexPatternRefName ∧
      (onDocumentRequestNumberChangeConfig cfg v).source.geoFieldName = cfg.source.geoFieldName ∧
      (onDocumentRequestNumberChangeConfig cfg v).source.geoFieldType = cfg.source.geoFieldType ∧
      (onDocumentRequestNumberChangeConfig cfg v).source.filters = cfg.source.filters ∧
      (onDocumentRequestNumberChangeConfig cfg v).source.tooltipFields = cfg.source.tooltipFields ∧
      (onDocumentRequestNumberChangeConfig cfg v).source.showTooltips = cfg.source.showTooltips ∧
      (onDocumentRequestNumberChangeConfig cfg v).source.useGeoBoundingBoxFilter = cfg.source.useGeoBoundingBoxFilter) ∧
    ((onTooltipSelectionChangeConfig cfg options).id = cfg.id ∧
      (onTooltipSelectionChangeConfig cfg options).source.indexPatternId = cfg.source.indexPatternId ∧
      (onTooltipSelectionChangeConfig cfg options).source.indexPatternRefName = cfg.source.indexPatternRefName ∧
      (onTooltipSelectionChangeConfig cfg options).source.geoFieldName = cfg.source.geoFieldName ∧
      (onTooltipSelectionChangeConfig cfg options).source.geoFieldType = cfg.source.geoFieldType ∧
      (onTooltipSelectionChangeConfig cfg options).source.documentRequestNumber = cfg.source.documentRequestNumber ∧
      (onTooltipSelectionChangeConfig cfg options).source.filters = cfg.source.filters ∧
      (onTooltipSelectionChangeConfig cfg options).source.showTooltips = cfg.source.showTooltips ∧
      (onTooltipSelectionChangeConfig cfg options).source.useGeoBoundingBoxFilter = cfg.source.useGeoBoundingBoxFilter) ∧
    ((onFiltersUpdatedConfig cfg fs).id = cfg.id ∧
      (onFiltersUpdatedConfig cfg fs).source.indexPatternId = cfg.source.indexPatternId ∧
      (onFiltersUpdatedConfig cfg fs).source.indexPatternRefName = cfg.source.indexPatternRefName ∧
      (onFiltersUpdatedConfig cfg fs).source.geoFieldName = cfg.source.geoFieldName ∧
      (onFiltersUpdatedConfig cfg fs).source.geoFieldType = cfg.source.geoFieldType ∧
      (onFiltersUpdatedConfig cfg fs).source.documentRequestNumber = cfg.source.documentRequestNumber ∧
      (onFiltersUpdatedConfig cfg fs).source.tooltipFields = cfg.source.tooltipFields ∧
      (onFiltersUpdatedConfig cfg fs).source.showTooltips = cfg.source.showTooltips ∧
      (onFiltersUpdatedConfig cfg fs).source.useGeoBoundingBoxFilter = cfg.source.useGeoBoundingBoxFilter) ∧
    ((onShowTooltipsChangeConfig cfg b).id = cfg.id ∧
      (onShowTooltipsChangeConfig cfg b).source.indexPatternId = cfg.source.indexPatternId ∧
      (onShowTooltipsChangeConfig cfg b).source.indexPatternRefName = cfg.source.indexPatternRefName ∧
      (onShowTooltipsChangeConfig cfg b).source.geoFieldName = cfg.source.geoFieldName ∧
      (onShowTooltipsChangeConfig cfg b).source.geoFieldType = cfg.source.geoFieldType ∧
      (onShowTooltipsChangeConfig cfg b).source.documentRequestNumber = cfg.source.documentRequestNumber ∧
      (onShowTooltipsChangeConfig cfg b).source.filters = cfg.source.filters ∧
      (onShowTooltipsChangeConfig cfg b).source.tooltipFields = cfg.source.tooltipFields ∧
      (onShowTooltipsChangeConfig cfg b).source.useGeoBoundingBoxFilter = cfg.source.useGeoBoundingBoxFilter) ∧
    ((onToggleGeoBoundingBoxConfig cfg c).id = cfg.id ∧
      (onToggleGeoBoundingBoxConfig cfg c).source.indexPatternId = cfg.source.indexPatternId ∧
      (onToggleGeoBoundingBoxConfig cfg c).source.indexPatternRefName = cfg.source.indexPatternRefName ∧
      (onToggleGeoBoundingBoxConfig cfg c).source.geoFieldName = cfg.source.geoFieldName ∧
      (onToggleGeoBoundingBoxConfig cfg c).source.geoFieldType = cfg.source.geoFieldType ∧
      (onToggleGeoBoundingBoxConfig cfg c).source.documentRequestNumber = cfg.source.documentRequestNumber ∧
      (onToggleGeoBoundingBoxConfig cfg c).source.filters = cfg.source.filters ∧
      (onToggleGeoBoundingBoxConfig cfg c).source.tooltipFields = cfg.source.tooltipFields ∧
      (onToggleGeoBoundingBoxConfig cfg c).source.showTooltips = cfg.source.showTooltips) :=
  ⟨⟨rfl, rfl, rfl, rfl, rfl, rfl, rfl, rfl, rfl⟩,
    ⟨rfl, rfl, rfl, rfl, rfl, rfl, rfl, rfl, rfl⟩,
    ⟨rfl, rfl, rfl, rfl, rfl, rfl, rfl, rfl, rfl⟩,
    ⟨rfl, rfl, rfl, rfl, rfl, rfl, rfl, rfl, rfl⟩,
    ⟨rfl, rfl, rfl, rfl, rfl, rfl, rfl, rfl, rfl⟩,
    ⟨rfl, rfl, rfl, rfl, rfl, rfl, rfl, rfl, rfl⟩⟩

/-- C7: every user change event delivered to a handler results in a call to
`setSelectedLayerConfig` with a snapshot reflecting that change (for the geo
field handler, whenever the chosen field resolves to a non-null field). -/
theorem handlers_emit_updated_snapshot
    (cfg : DocumentLayerSpecification) (f : IndexPatternField) (v : String)
    (options : List ComboOption) (fs : List LayerFilter) (b c : Bool) :
    (onGeoFieldChange cfg (some f) = some (geoFieldChangeConfig cfg f) ∧
      (geoFieldChangeConfig cfg f).source.geoFieldName = f.displayName ∧
      (geoFieldChangeConfig cfg f).source.geoFieldType = f.type) ∧
    (onDocumentRequestNumberChangeConfig cfg v).source.documentRequestNumber
        = jsParseInt v ∧
    (onTooltipSelectionChangeConfig cfg options).source.tooltipFields
        = options.map ComboOption.label ∧
    (onFiltersUpdatedConfig cfg fs).source.filters = fs ∧
    (onShowTooltipsChangeConfig cfg b).source.showTooltips = b ∧
    (onToggleGeoBoundingBoxConfig cfg c).source.useGeoBoundingBoxFilter = c :=
  ⟨⟨rfl, rfl, rfl⟩, rfl, rfl, rfl, rfl, rfl⟩

/-- C8: `onTooltipSelectionChange` writes exactly the selected options'
labels, in order, into `source.tooltipFields`. -/
theorem tooltip_selection_writes_labels (cfg : DocumentLayerSpecification)
    (options : List ComboOption) :
    (onTooltipSelectionChangeConfig cfg options).source.tooltipFields
      = options.map ComboOption.label := rfl

/-- C9: the bounding-box checkbox is rendered disabled exactly when
`source.geoFieldType` is not `'geo_point'`, so the filter can only be toggled
through the UI for a `geo_point` field. -/
theorem bounding_box_checkbox_disabled_iff (cfg : DocumentLayerSpecification) :
    (boundingBoxDisabled cfg = true ↔ cfg.source.geoFieldType ≠ "geo_point") ∧
    (boundingBoxDisabled cfg = false ↔ cfg.source.geoFieldType = "geo_point") := by
  constructor <;> simp [boundingBoxDisabled]

/-- C4: when the resolved index pattern's id differs from
`source.indexPatternId`, the emitted configuration carries the new id and
title, filters restored from the memorized cache (empty when nothing is
cached), and the geo field restored from the cached `geoField` when one
exists; and the memorization effect writes exactly
`{ filters: source.filters, geoField: selectedField }` for the current id. -/
theorem index_pattern_change_updates_config
    (cfg : DocumentLayerSpecification) (ip : IndexPattern) (mem : MemorizedForm)
    (pid : String) (hid : ip.id = some pid) (hne : pid ≠ "")
    (hdiff : pid ≠ cfg.source.indexPatternId) :
    (onIndexPatternChange cfg ip mem).isSome = true ∧
    (∀ r, onIndexPatternChange cfg ip mem = some r →
      r.id = cfg.id ∧
      r.source.indexPatternId = pid ∧
      r.source.indexPatternRefName = ip.title ∧
      r.source.filters = ((mem pid).bind MemorizedEntry.filters).getD [] ∧
      (∀ g, (mem pid).bind MemorizedEntry.geoField = some g →
        r.source.geoFieldName = g.displayName ∧ r.source.geoFieldType = g.type) ∧
      ((mem pid).bind MemorizedEntry.geoField = none →
        r.source.geoFieldName = cfg.source.geoFieldName ∧
          r.source.geoFieldType = cfg.source.geoFieldType)) ∧
    (∀ (m : MemorizedForm) (p : IndexPattern) (c : DocumentLayerSpecification)
        (sel : Option IndexPatternField) (q : String),
      p.id = some q → q ≠ "" → q = c.source.indexPatternId → m q = none →
      memorizationEffect m (some p) c sel
        = memUpdate m q ⟨some c.source.filters, sel⟩) := by
  have hdif : idDiffers ip.id cfg.source.indexPatternId = true := by
    rw [hid]; simp [idDiffers]; exact hdiff
  have htru : strTruthy ip.id = true := by
    rw [hid]; simp [strTruthy]; exact hne
  have hstru : strTruthy (some pid) = true := by simp [strTruthy]; exact hne
  refine ⟨?_, ?_, ?_⟩
  · simp [onIndexPatternChange, hdif]
  · intro r hr
    rw [onIndexPatternChange] at hr
    rw [hdif] at hr
    simp only [if_true] at hr
    rw [hid] at hr
    cases hg : (mem pid).bind MemorizedEntry.geoField with
    | none =>
      simp only [hstru, if_true, Option.getD_some, hg] at hr
      rw [Option.some_inj] at hr
      subst hr
      refine ⟨rfl, rfl, rfl, rfl, ?_, ?_⟩
      · intro g hgg; simp at hgg
      · intro _; exact ⟨rfl, rfl⟩
    | some g =>
      simp only [hstru, if_true, Option.getD_some, hg] at hr
      rw [Option.some_inj] at hr
      subst hr
      refine ⟨rfl, rfl, rfl, rfl, ?_, ?_⟩
      · intro g' hgg
        rw [Option.some_inj] at hgg
        subst hgg
        exact ⟨rfl, rfl⟩
      · intro hgg; simp at hgg
  · intro m p c sel q hq hqne hqeq hmem
    rw [memorizationEffect, hq]
    have htq : strTruthy (some q) = true := by simp [strTruthy]; exact hqne
    simp only [htq, if_true, Option.getD_some, ← hqeq, if_pos rfl, hmem]

/-- A concrete index pattern whose id differs from `cfgEx`'s. -/
def ipEx : IndexPattern :=
  { id := some "ip-2", title := "pattern-2", fields := [] }

/-- A concrete memorized form with an entry cached for `"ip-2"`. -/
def memEx : MemorizedForm :=
  fun k =>
    if k = "ip-2" then
      some { filters := some [⟨7⟩], geoField := some ⟨"loc", "loc", "geo_shape"⟩ }
    else none

/-- Witness for C4 at a concrete configuration, index pattern and cache. -/
theorem index_pattern_change_updates_config_witness :
    (onIndexPatternChange cfgEx ipEx memEx).isSome = true :=
  (index_pattern_change_updates_config cfgEx ipEx memEx "ip-2" rfl (by decide)
    (by decide)).1

/-- A geo field whose `displayName` differs from its `name`. -/
def fieldC5 : IndexPatternField :=
  { name := "location", displayName := "Location Display", type := "geo_point" }

/-- An index pattern containing only `fieldC5`. -/
def ipC5 : IndexPattern :=
  { id := some "ip-5", title := "pattern-5", fields := [fieldC5] }

/-- Two geo fields sharing one `name`. -/
def fieldC5a : IndexPatternField :=
  { name := "loc", displayName := "loc", type := "geo_point" }

/-- Second geo field with the same `name` as `fieldC5a`. -/
def fieldC5b : IndexPatternField :=
  { name := "loc", displayName := "loc", type := "geo_shape" }

/-- An index pattern whose geo fields have duplicate names. -/
def ipC5dup : IndexPattern :=
  { id := some "ip-5d", title := "pattern-5d", fields := [fieldC5a, fieldC5b] }

/-- C5 counterexample: selecting a geo field does not round-trip in general.
With a field whose `displayName` differs from its `name`, the handler stores
the `displayName` but `selectedField` searches by `name`, so the derived
selection is lost; with duplicate names, `find?` returns the first field, not
the selected one. -/
theorem geoField_roundtrip_counterexample :
    (fieldC5 ∈ (geoFieldsOf (some ipC5)).getD [] ∧
      selectedFieldOf (geoFieldsOf (some ipC5)) (geoFieldChangeConfig cfgEx fieldC5)
        ≠ some fieldC5) ∧
    (fieldC5b ∈ (geoFieldsOf (some ipC5dup)).getD [] ∧
      selectedFieldOf (geoFieldsOf (some ipC5dup)) (geoFieldChangeConfig cfgEx fieldC5b)
        ≠ some fieldC5b) := by
  decide

/-- `find?` by name returns the member itself when names are unique. -/
theorem find_name_of_nodup (l : List IndexPatternField) (f : IndexPatternField)
    (hf : f ∈ l) (hnd : (l.map IndexPatternField.name).Nodup) :
    l.find? (fun g => g.name == f.name) = some f := by
  induction l with
  | nil => cases hf
  | cons hd tl ih =>
    rw [List.map_cons, List.nodup_cons] at hnd
    rcases List.mem_cons.mp hf with h | h
    · subst h
      simp [List.find?]
    · have hne : (hd.name == f.name) = false := by
        rw [beq_eq_false_iff_ne]
        intro hh
        exact hnd.1 (hh ▸ List.mem_map_of_mem IndexPatternField.name h)
      simp [List.find?, hne, ih h hnd.2]

/-- C5 amended: the round-trip holds for every geo field whose `displayName`
equals its `name`, provided the geo fields' names are pairwise distinct. -/
theorem geoField_roundtrip_amended (ip : IndexPattern)
    (cfg : DocumentLayerSpecification) (gfs : List IndexPatternField)
    (f : IndexPatternField) (hg : geoFieldsOf (some ip) = some gfs)
    (hf : f ∈ gfs) (hdn : f.displayName = f.name)
    (hnd : (gfs.map IndexPatternField.name).Nodup) :
    selectedFieldOf (geoFieldsOf (some ip)) (geoFieldChangeConfig cfg f) = some f := by
  rw [selectedFieldOf, hg]
  show gfs.find? (fun g => g.name == f.displayName) = some f
  rw [hdn]
  exact find_name_of_nodup gfs f hf hnd

/-- A geo field whose `displayName` equals its `name`. -/
def fieldC5w : IndexPatternField :=
  { name := "spot", displayName := "spot", type := "geo_point" }

/-- An index pattern containing only `fieldC5w`. -/
def ipC5w : IndexPattern :=
  { id := some "ip-5w", title := "pattern-5w", fields := [fieldC5w] }

/-- Witness for the amended C5 at a concrete field and index pattern. -/
theorem geoField_roundtrip_amended_witness :
    selectedFieldOf (geoFieldsOf (some ipC5w)) (geoFieldChangeConfig cfgEx fieldC5w)
      = some fieldC5w :=
  geoField_roundtrip_amended ipC5w cfgEx [fieldC5w] fieldC5w (by decide)
    (by decide) rfl (by decide)

/-- C10: `tooltipFieldsOptions` is empty without an index pattern; otherwise
it partitions the fields by type: group labels are pairwise distinct field
types occurring in the field list, each group's options are exactly the
fields of that type labelled `displayName || name` in order, every field's
label appears in the group of its type, and every field lies in exactly one
group of the underlying type grouping. -/
theorem tooltip_options_partition_by_type :
    tooltipFieldsOptions none = [] ∧
    ∀ (pid : Option String) (title : String) (fs : List IndexPatternField),
      ((tooltipFieldsOptions (some ⟨pid, title, fs⟩)).map ComboGroup.label).Nodup ∧
      (∀ g, g ∈ tooltipFieldsOptions (some ⟨pid, title, fs⟩) →
        (∃ f, f ∈ fs ∧ f.type = g.label) ∧
        g.options = (fs.filter (fun f => f.type == g.label)).map
          (fun f => ⟨fieldLabel f⟩)) ∧
      (∀ f, f ∈ fs → ∃ g, g ∈ tooltipFieldsOptions (some ⟨pid, title, fs⟩) ∧
        g.label = f.type ∧ ComboOption.mk (fieldLabel f) ∈ g.options) ∧
      (∀ f, f ∈ fs → ∃! e : String × List IndexPatternField,
        e ∈ groupByType fs ∧ f ∈ e.2) := by
  refine ⟨rfl, ?_⟩
  intro pid title fs
  refine ⟨?_, ?_, ?_, ?_⟩
  · have h := keys_nodup_groupByType fs
    simpa [tooltipFieldsOptions, List.map_map, Function.comp] using h
  · intro g hg
    have hg' : g ∈ (groupByType fs).map
        (fun e => ComboGroup.mk e.1 (e.2.map fun f => ⟨fieldLabel f⟩)) := hg
    obtain ⟨e, he, hge⟩ := List.mem_map.mp hg'
    subst hge
    obtain ⟨hfilt, hne⟩ := groupByType_entry_eq_filter fs e he
    constructor
    · obtain ⟨f, hfmem⟩ := List.exists_mem_of_ne_nil e.2 hne
      rw [hfilt] at hfmem
      obtain ⟨hf1, hf2⟩ := List.mem_filter.mp hfmem
      exact ⟨f, hf1, by simpa using hf2⟩
    · show e.2.map _ = _
      rw [hfilt]
  · intro f hf
    refine ⟨ComboGroup.mk f.type ((fs.filter (fun g => g.type == f.type)).map
      fun x => ⟨fieldLabel x⟩), ?_, rfl, ?_⟩
    · exact List.mem_map_of_mem _ (groupByType_mem_of_field fs f hf)
    · exact List.mem_map_of_mem _ (List.mem_filter.mpr ⟨hf, by simp⟩)
  · intro f hf
    refine ⟨⟨f.type, fs.filter (fun g => g.type == f.type)⟩,
      ⟨groupByType_mem_of_field fs f hf, List.mem_filter.mpr ⟨hf, by simp⟩⟩, ?_⟩
    rintro e' ⟨he', hfe'⟩
    have h2 := (groupByType_entry_eq_filter fs e' he').1
    rw [h2] at hfe'
    have ht : f.type = e'.1 := by simpa using (List.mem_filter.mp hfe').2
    exact groupByType_key_inj fs e' _ he' (groupByType_mem_of_field fs f hf) ht.symm

/-- Concrete field of type `t1` with an empty display name. -/
def fieldC10a : IndexPatternField :=
  { name := "alpha", displayName := "", type := "t1" }

/-- Concrete field of type `t2` with a custom display name. -/
def fieldC10b : IndexPatternField :=
  { name := "beta", displayName := "Beta", type := "t2" }

/-- Second concrete field of type `t1`. -/
def fieldC10c : IndexPatternField :=
  { name := "gamma", displayName := "", type := "t1" }

/-- A concrete field list with two distinct types. -/
def fsC10 : List IndexPatternField := [fieldC10a, fieldC10b, fieldC10c]

/-- Witness for C10 on a concrete field list: the no-index-pattern case, the
distinctness of group labels, and the contents of the `t1` group. -/
theorem tooltip_options_partition_witness :
    tooltipFieldsOptions none = [] ∧
    ((tooltipFieldsOptions (some ⟨some "ip-10", "p10", fsC10⟩)).map ComboGroup.label).Nodup ∧
    (ComboGroup.mk "t1" [⟨"alpha"⟩, ⟨"gamma"⟩]).options
      = (fsC10.filter
          (fun f => f.type == (ComboGroup.mk "t1" [⟨"alpha"⟩, ⟨"gamma"⟩]).label)).map
        (fun f => ⟨fieldLabel f⟩) :=
  ⟨tooltip_options_partition_by_type.1,
    (tooltip_options_partition_by_type.2 (some "ip-10") "p10" fsC10).1,
    ((tooltip_options_partition_by_type.2 (some "ip-10") "p10" fsC10).2.1
      (ComboGroup.mk "t1" [⟨"alpha"⟩, ⟨"gamma"⟩]) (by decide)).2⟩
